import Mathlib

set_option maxHeartbeats 1000000

/-
Shallow embedding of the pycon-cdk-demo repository (src/infra/app.py,
src/infra/s3.py, src/infra/vpc.py).  Strings are modelled as Lean strings
(ASCII model of Python str: Char.toUpper / Char.toLower in Lean core are
ASCII-only, which coincides with Python behaviour on ASCII input).
-/

-- ===== Python string primitives used by S3Stack._sanitize_construct_id =====

/-- Python `word.capitalize()` on a list of characters: the first character is
uppercased and every remaining character is lowercased (ASCII model). -/
def capitalize : List Char → List Char
  | [] => []
  | c :: cs => c.toUpper :: cs.map Char.toLower

/-- Character-wise model of `bucket_name.replace(".", "_").replace("-", "_")`
(both replacements are single-character, so they act independently on each
character). -/
def replaceSep (c : Char) : Char :=
  if c = '.' ∨ c = '-' then '_' else c

/-- Helper for `splitSep`: Python `str.split(sep)` with an accumulator holding
the current (reversed) segment. -/
def splitSepAux (sep : Char) : List Char → List Char → List (List Char)
  | [], acc => [acc.reverse]
  | c :: cs, acc =>
    if c = sep then acc.reverse :: splitSepAux sep cs []
    else splitSepAux sep cs (c :: acc)

/-- Python `s.split(sep)` on character lists: splits at every occurrence of
`sep`, keeping empty segments (they are dropped later by the `if word`
filter, exactly as in the source). -/
def splitSep (sep : Char) (l : List Char) : List (List Char) :=
  splitSepAux sep l []

/-- `S3Stack._sanitize_construct_id` (src/infra/s3.py lines 81-88) on char
lists: replace `.` and `-` with `_`, split on `_`, drop empty segments,
`capitalize` each remaining segment, concatenate. -/
def sanitizeL (s : List Char) : List Char :=
  List.flatten (((splitSep '_' (s.map replaceSep)).filter
    (fun w => !w.isEmpty)).map capitalize)

/-- `S3Stack._sanitize_construct_id` on strings. -/
def sanitize_construct_id (bucket_name : String) : String :=
  ⟨sanitizeL bucket_name.data⟩

/-- Does a character belong to the separator set the sanitizer eliminates
(`.`, `-`, `_`)? -/
def isSep (c : Char) : Bool :=
  c = '.' || c = '-' || c = '_'

/-- Alphanumeric ASCII characters: digits `0-9`, letters `A-Z` and `a-z`. -/
def isAlnum (c : Char) : Bool :=
  decide ((48 ≤ c.toNat ∧ c.toNat ≤ 57) ∨ (65 ≤ c.toNat ∧ c.toNat ≤ 90) ∨
    (97 ≤ c.toNat ∧ c.toNat ≤ 122))

/-- Uppercase the first character of a segment and leave the rest unchanged:
the literal reading of the spec sentence "capitalize each remaining segment's
first letter". -/
def capitalizeFirst : List Char → List Char
  | [] => []
  | c :: cs => c.toUpper :: cs

/-- Helper for `splitAny`: split on a predicate. -/
def splitAnyAux (p : Char → Bool) : List Char → List Char → List (List Char)
  | [], acc => [acc.reverse]
  | c :: cs, acc =>
    if p c then acc.reverse :: splitAnyAux p cs []
    else splitAnyAux p cs (c :: acc)

/-- Split a character list at every character satisfying `p`. -/
def splitAny (p : Char → Bool) (l : List Char) : List (List Char) :=
  splitAnyAux p l []

/-- The sanitizer algorithm exactly as the spec words it: split the input on
the separator set, drop empty segments, uppercase each remaining segment's
first letter (and nothing else), concatenate. -/
def sanitizeSpecL (s : List Char) : List Char :=
  List.flatten (((splitAny isSep s).filter (fun w => !w.isEmpty)).map
    capitalizeFirst)

/-- The spec's algorithm sentence, read literally, on strings. -/
def sanitizeSpec (bucket_name : String) : String :=
  ⟨sanitizeSpecL bucket_name.data⟩

/-- The amended sanitizer algorithm: split the input on the separator set,
drop empty segments, `capitalize` each remaining segment (uppercasing its
first character and lowercasing the rest), concatenate. -/
def sanitizeAmendedL (s : List Char) : List Char :=
  List.flatten (((splitAny isSep s).filter (fun w => !w.isEmpty)).map
    capitalize)

/-- The amended sanitizer algorithm on strings. -/
def sanitizeAmended (bucket_name : String) : String :=
  ⟨sanitizeAmendedL bucket_name.data⟩

-- ===== Configuration data model (cdk.json "context" entries) =====

/-- The `vpc` block of an environment entry in cdk.json.  Every field is
optional; `VpcStack.__init__` supplies the defaults at the use site via
`vpc_config.get(key, default)`. -/
structure VpcConfig where
  cidr : Option String
  max_azs : Option Nat
  enable_dns_hostnames : Option Bool
  enable_dns_support : Option Bool
  enable_nat_gateway : Option Bool
deriving DecidableEq

/-- One entry of the `s3` list of an environment: an optional `bucket_name`
(absent key modelled as `none`). -/
structure StorageSpec where
  bucket_name : Option String
deriving DecidableEq

/-- One environment entry of cdk.json `context`: optional `region`, optional
`vpc` block, and the `s3` list (absent key modelled as the empty list, which
is what `env_config.get("s3", [])` yields). -/
structure EnvConfig where
  region : Option String
  vpc : Option VpcConfig
  s3 : List StorageSpec
deriving DecidableEq

/-- The parsed cdk.json: the `context` mapping from environment name to its
entry, modelled as an association list. -/
structure Config where
  context : List (String × EnvConfig)
deriving DecidableEq

/-- `config.get("context", {}).get(env_name, {})`, with the Python falsy
check `if not env_config` folded in: an absent entry (and, in Python, an
empty one, which this model does not distinguish) means "no environment". -/
def Config.find (config : Config) (env_name : String) : Option EnvConfig :=
  config.context.lookup env_name

-- ===== Synthesized-declaration model =====

/-- A source for a security-group ingress rule: `ec2.Peer.any_ipv4()` or
`ec2.Peer.security_group_id(...)` (the referenced group's identity). -/
inductive Peer
  | anyIpv4
  | securityGroupId (sgid : String)
deriving DecidableEq

/-- One `add_ingress_rule` call: the peer, the TCP port of the
`ec2.Port.tcp(...)` connection, and the rule text. -/
structure IngressRule where
  peer : Peer
  port : Nat
  descr : String
deriving DecidableEq

/-- An `ec2.SecurityGroup` declaration.  Its AWS-side `security_group_id` is
an unresolved token at synthesis time; the model uses the construct id `cid`
as the group's identity. -/
structure SecurityGroup where
  cid : String
  allow_all_outbound : Bool
  ingress : List IngressRule
deriving DecidableEq

/-- The three `ec2.SubnetType` values used by the stack. -/
inductive SubnetKind
  | public
  | privateWithEgress
  | privateIsolated
deriving DecidableEq

/-- One `ec2.SubnetConfiguration(...)` argument of the `ec2.Vpc` call. -/
structure SubnetCfg where
  name : String
  subnet_type : SubnetKind
  cidr_mask : Nat
deriving DecidableEq

/-- One subnet of the synthesized network: a tier declaration instantiated
in one availability zone. -/
structure Subnet where
  name : String
  subnet_type : SubnetKind
  cidr_mask : Nat
  az : Nat
deriving DecidableEq

/-- The `subnet_configuration` list passed to `ec2.Vpc` in
`VpcStack.__init__` (src/infra/vpc.py lines 45-61). -/
def subnet_configuration (env_name : String) : List SubnetCfg :=
  [ ⟨"public-subnet-" ++ env_name, SubnetKind.public, 24⟩,
    ⟨"private-subnet-" ++ env_name, SubnetKind.privateWithEgress, 24⟩,
    ⟨"isolated-subnet-" ++ env_name, SubnetKind.privateIsolated, 24⟩ ]

/-- Modelled from the spec: the `ec2.Vpc` construct itself (provider SDK
code, not part of this repository) "replicated across the configured zone
count" — each subnet-tier declaration is instantiated once per availability
zone, for `max_azs` zones. -/
def expandSubnets (max_azs : Nat) (cfgs : List SubnetCfg) : List Subnet :=
  (List.range max_azs).flatMap
    (fun az => cfgs.map (fun c => ⟨c.name, c.subnet_type, c.cidr_mask, az⟩))

/-- The `ec2.Vpc` declaration emitted by `VpcStack.__init__`. -/
structure VpcDecl where
  cid : String
  cidr : String
  max_azs : Nat
  enable_dns_hostnames : Bool
  enable_dns_support : Bool
  nat_gateways : Nat
  subnets : List Subnet
deriving DecidableEq

/-- The two gateway-endpoint services used in `_create_vpc_endpoints`. -/
inductive EndpointService
  | s3
  | dynamodb
deriving DecidableEq

/-- One `add_gateway_endpoint` call. -/
structure GatewayEndpoint where
  cid : String
  service : EndpointService
  subnet_type : SubnetKind
deriving DecidableEq

/-- The value of a `CfnOutput`: these are unresolved provider tokens at
synthesis time, modelled symbolically. -/
inductive OutVal
  | bucketName (bucket : String)
  | bucketArn (bucket : String)
  | vpcId
  | vpcCidr
  | publicSubnetIds
  | privateSubnetIds
  | webSgId
  | dbSgId
deriving DecidableEq

/-- A `CfnOutput` declaration: construct id, symbolic value, rule text. -/
structure CfnOut where
  cid : String
  value : OutVal
  descr : String
deriving DecidableEq

/-- `s3.BucketEncryption` values relevant to the stack. -/
inductive BucketEncryption
  | s3Managed
  | kms
  | unencrypted
deriving DecidableEq

/-- `s3.BlockPublicAccess` values relevant to the stack. -/
inductive BlockPublicAccess
  | blockAll
  | blockAcls
deriving DecidableEq

/-- `RemovalPolicy` values relevant to the stack. -/
inductive RemovalPolicy
  | retain
  | destroy
deriving DecidableEq

/-- The `s3.Bucket` declaration emitted for one storage spec. -/
structure BucketDecl where
  cid : String
  bucket_name : String
  versioned : Bool
  encryption : BucketEncryption
  block_public_access : BlockPublicAccess
  removal_policy : RemovalPolicy
deriving DecidableEq

/-- One loop iteration's product in `S3Stack.__init__`: the bucket
declaration together with the `CfnOutput` declarations emitted for it. -/
structure BuiltBucket where
  bucket : BucketDecl
  outputs : List CfnOut
deriving DecidableEq

-- ===== Builders (S3Stack, VpcStack, app.main) =====

/-- The body of one non-skipped iteration of the bucket loop
(src/infra/s3.py lines 40-75). -/
def buildBucket (env_name bucket_name : String) : BuiltBucket :=
  let cid := sanitize_construct_id bucket_name
  ⟨⟨cid, bucket_name, true, BucketEncryption.s3Managed,
      BlockPublicAccess.blockAll, RemovalPolicy.retain⟩,
    [ ⟨cid ++ "Name", OutVal.bucketName bucket_name,
        "Name of S3 bucket " ++ bucket_name ++ " for " ++ env_name ++
          " environment"⟩,
      ⟨cid ++ "Arn", OutVal.bucketArn bucket_name,
        "ARN of S3 bucket " ++ bucket_name ++ " for " ++ env_name ++
          " environment"⟩ ]⟩

/-- The Python truthiness test `if not bucket_name: ... continue` — a spec is
processed only when `bucket_name` is present and non-empty. -/
def StorageSpec.hasName (sc : StorageSpec) : Bool :=
  match sc.bucket_name with
  | none => false
  | some n => !(n == "")

/-- The bucket loop of `S3Stack.__init__` (src/infra/s3.py lines 34-77):
process the specs in list order, skipping entries without a name. -/
def buildBuckets (env_name : String) : List StorageSpec → List BuiltBucket
  | [] => []
  | sc :: rest =>
    if sc.hasName then
      buildBucket env_name (sc.bucket_name.getD "") :: buildBuckets env_name rest
    else
      buildBuckets env_name rest

/-- The error taxonomy of the program (each `raise ...` site). -/
inductive BuildErr
  | unknownEnvironment (env : String)
  | missingNetworkConfig (env : String)
  | missingRegion (env : String)
  | missingAccount
deriving DecidableEq

/-- The result of `S3Stack.__init__`. -/
structure S3StackDecl where
  buckets : List BuiltBucket
deriving DecidableEq

/-- `S3Stack.__init__` (src/infra/s3.py): load the environment entry, fail
with the unknown-environment error when absent, then run the bucket loop. -/
def S3Stack (config : Config) (env_name : String) : Except BuildErr S3StackDecl :=
  match config.find env_name with
  | none => Except.error (BuildErr.unknownEnvironment env_name)
  | some env => Except.ok ⟨buildBuckets env_name env.s3⟩

/-- The result of `VpcStack.__init__`. -/
structure VpcStackDecl where
  vpc : VpcDecl
  web_security_group : SecurityGroup
  db_security_group : SecurityGroup
  endpoints : List GatewayEndpoint
  outputs : List CfnOut
deriving DecidableEq

/-- The declaration-building part of `VpcStack.__init__`
(src/infra/vpc.py lines 37-161), given the environment's `vpc` block. -/
def mkVpcStack (env_name : String) (vpc_config : VpcConfig) : VpcStackDecl :=
  let webId := "WebSecurityGroup-" ++ env_name
  ⟨ ⟨"Vpc-" ++ env_name,
      vpc_config.cidr.getD "10.0.0.0/16",
      vpc_config.max_azs.getD 2,
      vpc_config.enable_dns_hostnames.getD true,
      vpc_config.enable_dns_support.getD true,
      if vpc_config.enable_nat_gateway.getD true then 1 else 0,
      expandSubnets (vpc_config.max_azs.getD 2) (subnet_configuration env_name)⟩,
    ⟨webId, true,
      [ ⟨Peer.anyIpv4, 80, "Allow HTTP traffic"⟩,
        ⟨Peer.anyIpv4, 443, "Allow HTTPS traffic"⟩ ]⟩,
    ⟨"DatabaseSecurityGroup-" ++ env_name, false,
      [ ⟨Peer.securityGroupId webId, 3306, "Allow MySQL access from web services"⟩,
        ⟨Peer.securityGroupId webId, 5432,
          "Allow PostgreSQL access from web services"⟩ ]⟩,
    [ ⟨"S3GatewayEndpoint", EndpointService.s3, SubnetKind.privateWithEgress⟩,
      ⟨"DynamoDbGatewayEndpoint", EndpointService.dynamodb,
        SubnetKind.privateWithEgress⟩ ],
    [ ⟨"VpcId-" ++ env_name, OutVal.vpcId,
        "VPC ID for " ++ env_name ++ " environment"⟩,
      ⟨"VpcCidr-" ++ env_name, OutVal.vpcCidr,
        "VPC CIDR block for " ++ env_name ++ " environment"⟩,
      ⟨"PublicSubnetIds-" ++ env_name, OutVal.publicSubnetIds,
        "Public subnet IDs for " ++ env_name ++ " environment"⟩,
      ⟨"PrivateSubnetIds-" ++ env_name, OutVal.privateSubnetIds,
        "Private subnet IDs for " ++ env_name ++ " environment"⟩,
      ⟨"WebSecurityGroupId-" ++ env_name, OutVal.webSgId,
        "Web security group ID for " ++ env_name ++ " environment"⟩,
      ⟨"DatabaseSecurityGroupId-" ++ env_name, OutVal.dbSgId,
        "Database security group ID for " ++ env_name ++ " environment"⟩ ]⟩

/-- `VpcStack.__init__` (src/infra/vpc.py lines 22-161): load the
environment entry, fail when absent; fail with the missing-network-config
error when the entry has no `vpc` block; otherwise build the declarations. -/
def VpcStack (config : Config) (env_name : String) : Except BuildErr VpcStackDecl :=
  match config.find env_name with
  | none => Except.error (BuildErr.unknownEnvironment env_name)
  | some env =>
    match env.vpc with
    | none => Except.error (BuildErr.missingNetworkConfig env_name)
    | some vpc_config => Except.ok (mkVpcStack env_name vpc_config)

/-- The result of a successful `main` run: the two stacks plus the tags
applied to both. -/
structure AppDecl where
  vpc_stack : VpcStackDecl
  s3_stack : S3StackDecl
  tags : List (String × String)
deriving DecidableEq

/-- `main` of src/infra/app.py: read the account from the process
environment (a missing variable raises before anything else), look up the
environment entry, read its region (Python falsiness: absent or empty both
fail), build the VPC stack then the S3 stack, and tag both. -/
def mainApp (config : Config) (env_name : String) (account : Option String) :
    Except BuildErr AppDecl :=
  match account with
  | none => Except.error BuildErr.missingAccount
  | some _ =>
    match config.find env_name with
    | none => Except.error (BuildErr.unknownEnvironment env_name)
    | some env =>
      if (env.region.getD "") = "" then
        Except.error (BuildErr.missingRegion env_name)
      else
        match VpcStack config env_name with
        | Except.error e => Except.error e
        | Except.ok v =>
          match S3Stack config env_name with
          | Except.error e => Except.error e
          | Except.ok s =>
            Except.ok ⟨v, s,
              [ ("Environment", env_name), ("Project", "pycon"),
                ("Region", env.region.getD "") ]⟩

-- ===== Concrete configurations used as witnesses =====

/-- A concrete `vpc` block: the development entry of the demo cdk.json. -/
def devVpc : VpcConfig :=
  ⟨some "10.0.0.0/16", some 2, some true, some true, some true⟩

/-- A concrete environment entry with one nameless storage spec and one
named one. -/
def devEnv : EnvConfig :=
  ⟨some "us-east-1", some devVpc, [⟨none⟩, ⟨some "logs-bucket"⟩]⟩

/-- A concrete configuration holding only the development environment. -/
def devConfig : Config :=
  ⟨[("development", devEnv)]⟩

/-- A configuration with no environments at all. -/
def emptyConfig : Config :=
  ⟨[]⟩

-- ===== Char-level facts about the ASCII case functions =====

theorem toNat_ofNat_valid (n : Nat) (h : n < 55296) : (Char.ofNat n).toNat = n := by
  rw [Char.ofNat, dif_pos (Or.inl h)]
  rfl

theorem char_eq_of_toNat_eq {c d : Char} (h : c.toNat = d.toNat) : c = d := by
  have hc := Char.ofNat_toNat c
  have hd := Char.ofNat_toNat d
  rw [← hc, ← hd, h]

theorem char_toNat_lt (c : Char) : c.toNat < 1114112 := by
  have h := c.valid
  rcases h with h | h
  · exact Nat.lt_trans h (by decide)
  · exact h.2

theorem toUpper_toNat (c : Char) :
    c.toUpper.toNat =
      if 97 ≤ c.toNat ∧ c.toNat ≤ 122 then c.toNat - 32 else c.toNat := by
  unfold Char.toUpper
  split
  · rename_i h
    rw [if_pos (And.intro h.1 h.2)]
    exact toNat_ofNat_valid _ (by omega)
  · rename_i h
    rw [if_neg (fun hh => h (And.intro hh.1 hh.2))]

theorem toLower_toNat (c : Char) :
    c.toLower.toNat =
      if 65 ≤ c.toNat ∧ c.toNat ≤ 90 then c.toNat + 32 else c.toNat := by
  unfold Char.toLower
  split
  · rename_i h
    rw [if_pos (And.intro h.1 h.2)]
    exact toNat_ofNat_valid _ (by omega)
  · rename_i h
    rw [if_neg (fun hh => h (And.intro hh.1 hh.2))]

theorem toUpper_idem (c : Char) : c.toUpper.toUpper = c.toUpper := by
  apply char_eq_of_toNat_eq
  simp only [toUpper_toNat]
  split_ifs <;> omega

theorem toLower_idem (c : Char) : c.toLower.toLower = c.toLower := by
  apply char_eq_of_toNat_eq
  simp only [toLower_toNat]
  split_ifs <;> omega

/-- `isSep` characterized through code points (`-` is 45, `.` is 46, `_` is 95). -/
theorem isSep_iff_toNat (c : Char) :
    isSep c = true ↔ c.toNat = 45 ∨ c.toNat = 46 ∨ c.toNat = 95 := by
  constructor
  · intro h
    by_cases h1 : c = '.'
    · subst h1; decide
    · by_cases h2 : c = '-'
      · subst h2; decide
      · by_cases h3 : c = '_'
        · subst h3; decide
        · exfalso
          unfold isSep at h
          simp [h1, h2, h3] at h
  · intro h
    rcases h with h | h | h
    · have hc : c = '-' := char_eq_of_toNat_eq (by rw [h]; rfl)
      subst hc; decide
    · have hc : c = '.' := char_eq_of_toNat_eq (by rw [h]; rfl)
      subst hc; decide
    · have hc : c = '_' := char_eq_of_toNat_eq (by rw [h]; rfl)
      subst hc; decide

theorem isSep_toUpper (c : Char) (h : isSep c = false) :
    isSep c.toUpper = false := by
  rw [Bool.eq_false_iff]
  intro habs
  rw [isSep_iff_toNat, toUpper_toNat] at habs
  have hc : ¬ (c.toNat = 45 ∨ c.toNat = 46 ∨ c.toNat = 95) := by
    rw [← isSep_iff_toNat, h]
    simp
  split_ifs at habs <;> omega

theorem isSep_toLower (c : Char) (h : isSep c = false) :
    isSep c.toLower = false := by
  rw [Bool.eq_false_iff]
  intro habs
  rw [isSep_iff_toNat, toLower_toNat] at habs
  have hc : ¬ (c.toNat = 45 ∨ c.toNat = 46 ∨ c.toNat = 95) := by
    rw [← isSep_iff_toNat, h]
    simp
  split_ifs at habs <;> omega

theorem isAlnum_iff (c : Char) :
    isAlnum c = true ↔
      (48 ≤ c.toNat ∧ c.toNat ≤ 57) ∨ (65 ≤ c.toNat ∧ c.toNat ≤ 90) ∨
        (97 ≤ c.toNat ∧ c.toNat ≤ 122) := by
  unfold isAlnum
  simp

theorem isAlnum_toUpper (c : Char) (h : isAlnum c = true) :
    isAlnum c.toUpper = true := by
  rw [isAlnum_iff] at h ⊢
  rw [toUpper_toNat]
  split_ifs <;> omega

theorem isAlnum_toLower (c : Char) (h : isAlnum c = true) :
    isAlnum c.toLower = true := by
  rw [isAlnum_iff] at h ⊢
  rw [toLower_toNat]
  split_ifs <;> omega

theorem not_isSep_of_isAlnum (c : Char) (h : isAlnum c = true) :
    isSep c = false := by
  rw [isAlnum_iff] at h
  rw [Bool.eq_false_iff]
  intro habs
  rw [isSep_iff_toNat] at habs
  omega

-- ===== Structural lemmas about the sanitizer =====

theorem splitSepAux_no_sep (sep : Char) (l : List Char) :
    ∀ acc, (∀ x ∈ l, x ≠ sep) → splitSepAux sep l acc = [acc.reverse ++ l] := by
  induction l with
  | nil =>
    intro acc _
    simp [splitSepAux]
  | cons a l ih =>
    intro acc h
    have ha : ¬ (a = sep) := h a (by simp)
    simp only [splitSepAux, if_neg ha]
    rw [ih (a :: acc) (fun x hx => h x (List.mem_cons_of_mem _ hx))]
    simp

theorem mem_splitSepAux (sep : Char) (l : List Char) :
    ∀ acc, (∀ x ∈ acc, ¬ (x = sep)) →
      ∀ m ∈ splitSepAux sep l acc, ∀ c ∈ m, (c ∈ acc ∨ c ∈ l) ∧ ¬ (c = sep) := by
  induction l with
  | nil =>
    intro acc hacc m hm c hc
    simp only [splitSepAux, List.mem_singleton] at hm
    subst hm
    have hc2 := List.mem_reverse.mp hc
    exact ⟨Or.inl hc2, hacc c hc2⟩
  | cons a l ih =>
    intro acc hacc m hm c hc
    simp only [splitSepAux] at hm
    by_cases ha : a = sep
    · rw [if_pos ha] at hm
      rcases List.mem_cons.mp hm with hm | hm
      · subst hm
        have hc2 := List.mem_reverse.mp hc
        exact ⟨Or.inl hc2, hacc c hc2⟩
      · have := ih [] (by simp) m hm c hc
        rcases this with ⟨hmem, hne⟩
        rcases hmem with hmem | hmem
        · simp at hmem
        · exact ⟨Or.inr (List.mem_cons_of_mem _ hmem), hne⟩
    · rw [if_neg ha] at hm
      have hacc2 : ∀ x ∈ a :: acc, ¬ (x = sep) := by
        intro x hx
        rcases List.mem_cons.mp hx with hx | hx
        · subst hx; exact ha
        · exact hacc x hx
      have := ih (a :: acc) hacc2 m hm c hc
      rcases this with ⟨hmem, hne⟩
      rcases hmem with hmem | hmem
      · rcases List.mem_cons.mp hmem with hmem | hmem
        · subst hmem
          exact ⟨Or.inr (List.mem_cons_self _ _), hne⟩
        · exact ⟨Or.inl hmem, hne⟩
      · exact ⟨Or.inr (List.mem_cons_of_mem _ hmem), hne⟩

/-- Every character of every segment of `splitSep sep l` is a character of
`l` and is not the separator. -/
theorem mem_splitSep (sep : Char) (l : List Char) :
    ∀ m ∈ splitSep sep l, ∀ c ∈ m, c ∈ l ∧ ¬ (c = sep) := by
  intro m hm c hc
  have := mem_splitSepAux sep l [] (by simp) m hm c hc
  rcases this with ⟨hmem, hne⟩
  rcases hmem with hmem | hmem
  · simp at hmem
  · exact ⟨hmem, hne⟩

/-- A character produced by `replaceSep` is never `.` or `-`. -/
theorem replaceSep_not_dot_dash (c : Char) :
    ¬ (replaceSep c = '.') ∧ ¬ (replaceSep c = '-') := by
  unfold replaceSep
  split
  · constructor <;> decide
  · rename_i h
    push_neg at h
    constructor
    · exact h.1
    · exact h.2

/-- If `c` is not a separator then `replaceSep` leaves it unchanged. -/
theorem replaceSep_eq_self (c : Char) (h : isSep c = false) :
    replaceSep c = c := by
  unfold replaceSep
  rw [if_neg]
  intro habs
  rcases habs with habs | habs <;> subst habs <;> simp [isSep] at h

/-- Every character of a segment used by the sanitizer is a non-separator. -/
theorem seg_char_not_sep (s : List Char) (m : List Char)
    (hm : m ∈ splitSep '_' (s.map replaceSep)) :
    ∀ c ∈ m, isSep c = false := by
  intro c hc
  have h := mem_splitSep '_' (s.map replaceSep) m hm c hc
  rcases h with ⟨hmem, hund⟩
  rcases List.mem_map.mp hmem with ⟨d, _, hd⟩
  rw [Bool.eq_false_iff]
  intro habs
  unfold isSep at habs
  simp only [Bool.or_eq_true, decide_eq_true_eq] at habs
  rcases habs with (hdot | hdash) | hund2
  · exact (replaceSep_not_dot_dash d).1 (hd.trans hdot)
  · exact (replaceSep_not_dot_dash d).2 (hd.trans hdash)
  · exact hund hund2

/-- Membership in a capitalized segment comes from membership in the segment,
through `toUpper` or `toLower`. -/
theorem mem_capitalize (w : List Char) (c : Char) (hc : c ∈ capitalize w) :
    ∃ d ∈ w, c = d.toUpper ∨ c = d.toLower := by
  cases w with
  | nil => simp [capitalize] at hc
  | cons a as =>
    simp only [capitalize, List.mem_cons] at hc
    rcases hc with hc | hc
    · exact ⟨a, List.mem_cons_self _ _, Or.inl hc⟩
    · rcases List.mem_map.mp hc with ⟨d, hd, hdc⟩
      exact ⟨d, List.mem_cons_of_mem _ hd, Or.inr hdc.symm⟩

/-- K1: no character of a sanitized name is a separator. -/
theorem sanitizeL_no_sep (s : List Char) :
    ∀ c ∈ sanitizeL s, isSep c = false := by
  intro c hc
  unfold sanitizeL at hc
  rcases List.mem_flatten.mp hc with ⟨m, hm, hcm⟩
  rcases List.mem_map.mp hm with ⟨w, hw, hwm⟩
  have hwseg : w ∈ splitSep '_' (s.map replaceSep) := List.mem_of_mem_filter hw
  subst hwm
  rcases mem_capitalize w c hcm with ⟨d, hd, hcase⟩
  have hdns : isSep d = false := seg_char_not_sep s w hwseg d hd
  rcases hcase with hcase | hcase
  · subst hcase; exact isSep_toUpper d hdns
  · subst hcase; exact isSep_toLower d hdns

/-- K2: on input with no separator characters, the sanitizer is exactly
Python `capitalize`. -/
theorem sanitizeL_of_no_sep (s : List Char) (h : ∀ c ∈ s, isSep c = false) :
    sanitizeL s = capitalize s := by
  unfold sanitizeL
  have hmap : s.map replaceSep = s := by
    conv_rhs => rw [← List.map_id s]
    apply List.map_congr_left
    intro c hc
    exact replaceSep_eq_self c (h c hc)
  rw [hmap]
  have hsplit : splitSep '_' s = [s] := by
    unfold splitSep
    rw [splitSepAux_no_sep '_' s []]
    · simp
    · intro x hx habs
      have := h x hx
      subst habs
      simp [isSep] at this
  rw [hsplit]
  cases s with
  | nil => simp [capitalize]
  | cons a as => simp

/-- K3: Python `capitalize` is idempotent. -/
theorem capitalize_idem (w : List Char) : capitalize (capitalize w) = capitalize w := by
  cases w with
  | nil => rfl
  | cons a as =>
    simp only [capitalize, List.map_map]
    rw [toUpper_idem]
    congr 1
    apply List.map_congr_left
    intro c _
    exact toLower_idem c

/-- `replaceSep` sends a character to `_` exactly when it is a separator. -/
theorem replaceSep_underscore (a : Char) :
    (replaceSep a = '_') ↔ isSep a = true := by
  by_cases h1 : a = '.'
  · subst h1; decide
  · by_cases h2 : a = '-'
    · subst h2; decide
    · by_cases h3 : a = '_'
      · subst h3; decide
      · have hs : isSep a = false := by
          unfold isSep
          simp [h1, h2, h3]
        rw [replaceSep_eq_self a hs, hs]
        simp [h3]

/-- Replacing `.` and `-` with `_` and splitting on `_` is the same as
splitting directly on the separator set. -/
theorem splitSepAux_replaceSep (l : List Char) :
    ∀ acc, splitSepAux '_' (l.map replaceSep) acc = splitAnyAux isSep l acc := by
  induction l with
  | nil => intro acc; rfl
  | cons a l ih =>
    intro acc
    simp only [List.map_cons, splitSepAux, splitAnyAux]
    by_cases h : isSep a = true
    · rw [if_pos ((replaceSep_underscore a).mpr h), if_pos h, ih]
    · have h2 : ¬ (replaceSep a = '_') :=
        fun hh => h ((replaceSep_underscore a).mp hh)
      rw [if_neg h2, if_neg (by simp [h]), replaceSep_eq_self a (by simp [h]), ih]

/-- The code's two-step pipeline equals the single-split amended pipeline. -/
theorem sanitizeL_eq_amended (s : List Char) : sanitizeL s = sanitizeAmendedL s := by
  unfold sanitizeL sanitizeAmendedL splitSep splitAny
  rw [splitSepAux_replaceSep]

/-- If every input character is alphanumeric or a separator, every character
of the sanitized output is alphanumeric. -/
theorem sanitizeL_alnum (s : List Char)
    (h : ∀ c ∈ s, isAlnum c = true ∨ isSep c = true) :
    ∀ c ∈ sanitizeL s, isAlnum c = true := by
  intro c hc
  unfold sanitizeL at hc
  rcases List.mem_flatten.mp hc with ⟨m, hm, hcm⟩
  rcases List.mem_map.mp hm with ⟨w, hw, hwm⟩
  have hwseg := List.mem_of_mem_filter hw
  subst hwm
  rcases mem_capitalize w c hcm with ⟨d, hd, hcase⟩
  have hmem := mem_splitSep '_' (s.map replaceSep) w hwseg d hd
  rcases hmem with ⟨hmemmap, hund⟩
  rcases List.mem_map.mp hmemmap with ⟨e, he, hed⟩
  have halne : isAlnum e = true := by
    rcases h e he with ha | hs
    · exact ha
    · exfalso
      have hrep : replaceSep e = '_' := (replaceSep_underscore e).mpr hs
      exact hund (hed.symm.trans hrep)
  have hde : d = e := by
    rw [← hed, replaceSep_eq_self e (not_isSep_of_isAlnum e halne)]
  subst hde
  rcases hcase with hcase | hcase
  · subst hcase; exact isAlnum_toUpper d halne
  · subst hcase; exact isAlnum_toLower d halne

-- quick sanity checks (concrete evaluations)

example : sanitize_construct_id "my-bucket.name" = "MyBucketName" := by decide

example : sanitize_construct_id "myBucket" = "Mybucket" := by decide

example : sanitizeSpec "myBucket" = "MyBucket" := by decide

-- ===== Helper lemmas about the builders =====

/-- The bucket loop is exactly: filter the named specs, in order, and build
one bucket per survivor. -/
theorem buildBuckets_eq_filter_map (env_name : String) (l : List StorageSpec) :
    buildBuckets env_name l =
      (l.filter StorageSpec.hasName).map
        (fun sc => buildBucket env_name (sc.bucket_name.getD "")) := by
  induction l with
  | nil => rfl
  | cons sc rest ih =>
    by_cases h : sc.hasName
    · simp [buildBuckets, List.filter_cons, h, ih]
    · simp [buildBuckets, List.filter_cons, h, ih]

-- ===== Claims =====

/-- C1: for every environment with a network spec, the database security
group declares no default egress, and every ingress rule it declares has the
web security group's identity as its sole source, on port 3306 or 5432; in
particular none of its ingress rules is open to any source. -/
theorem c1_db_security_group_restricted (config : Config) (env_name : String)
    (env : EnvConfig) (vpc_config : VpcConfig)
    (henv : config.find env_name = some env) (hv : env.vpc = some vpc_config) :
    ∃ st, VpcStack config env_name = Except.ok st ∧
      st.db_security_group.allow_all_outbound = false ∧
      (∀ r ∈ st.db_security_group.ingress,
        r.peer = Peer.securityGroupId st.web_security_group.cid ∧
          (r.port = 3306 ∨ r.port = 5432)) ∧
      (∀ r ∈ st.db_security_group.ingress, ¬ (r.peer = Peer.anyIpv4)) := by
  refine ⟨mkVpcStack env_name vpc_config, ?_, ?_, ?_, ?_⟩
  · simp only [VpcStack, henv, hv]
  · rfl
  · intro r hr
    simp only [mkVpcStack, List.mem_cons, List.not_mem_nil, or_false] at hr
    rcases hr with hr | hr <;> subst hr <;> simp [mkVpcStack]
  · intro r hr
    simp only [mkVpcStack, List.mem_cons, List.not_mem_nil, or_false] at hr
    rcases hr with hr | hr <;> subst hr <;> simp

/-- C1 witness: the theorem instantiated on the concrete development
configuration. -/
theorem c1_witness :
    ∃ st, VpcStack devConfig "development" = Except.ok st ∧
      st.db_security_group.allow_all_outbound = false ∧
      (∀ r ∈ st.db_security_group.ingress,
        r.peer = Peer.securityGroupId st.web_security_group.cid ∧
          (r.port = 3306 ∨ r.port = 5432)) ∧
      (∀ r ∈ st.db_security_group.ingress, ¬ (r.peer = Peer.anyIpv4)) :=
  c1_db_security_group_restricted devConfig "development" devEnv devVpc
    (by decide) (by decide)

/-- C2: every storage spec of the active environment carrying a (non-empty)
bucket name yields a bucket declaration that is versioned, S3-managed
encrypted, fully public-access-blocked and retained on delete, together with
exactly two named outputs (construct id suffixed "Name" and "Arn", carrying
the bucket name and the bucket ARN). -/
theorem c2_storage_resource_built (config : Config) (env_name : String)
    (env : EnvConfig) (sc : StorageSpec) (n : String)
    (henv : config.find env_name = some env) (hmem : sc ∈ env.s3)
    (hn : sc.bucket_name = some n) (hne : ¬ (n = "")) :
    ∃ st, S3Stack config env_name = Except.ok st ∧
      ∃ b ∈ st.buckets,
        b.bucket.bucket_name = n ∧
        b.bucket.cid = sanitize_construct_id n ∧
        b.bucket.versioned = true ∧
        b.bucket.encryption = BucketEncryption.s3Managed ∧
        b.bucket.block_public_access = BlockPublicAccess.blockAll ∧
        b.bucket.removal_policy = RemovalPolicy.retain ∧
        b.outputs.length = 2 ∧
        b.outputs.map CfnOut.cid =
          [b.bucket.cid ++ "Name", b.bucket.cid ++ "Arn"] ∧
        b.outputs.map CfnOut.value =
          [OutVal.bucketName n, OutVal.bucketArn n] := by
  refine ⟨⟨buildBuckets env_name env.s3⟩, ?_, ?_⟩
  · unfold S3Stack
    rw [henv]
  · refine ⟨buildBucket env_name n, ?_, ?_⟩
    · rw [buildBuckets_eq_filter_map]
      apply List.mem_map.mpr
      refine ⟨sc, ?_, ?_⟩
      · apply List.mem_filter.mpr
        refine ⟨hmem, ?_⟩
        unfold StorageSpec.hasName
        rw [hn]
        simp [hne]
      · rw [hn]
        rfl
    · simp [buildBucket]

/-- C2 witness: the theorem instantiated on the concrete development
configuration and its "logs-bucket" spec. -/
theorem c2_witness :
    ∃ st, S3Stack devConfig "development" = Except.ok st ∧
      ∃ b ∈ st.buckets,
        b.bucket.bucket_name = "logs-bucket" ∧
        b.bucket.cid = sanitize_construct_id "logs-bucket" ∧
        b.bucket.versioned = true ∧
        b.bucket.encryption = BucketEncryption.s3Managed ∧
        b.bucket.block_public_access = BlockPublicAccess.blockAll ∧
        b.bucket.removal_policy = RemovalPolicy.retain ∧
        b.outputs.length = 2 ∧
        b.outputs.map CfnOut.cid =
          [b.bucket.cid ++ "Name", b.bucket.cid ++ "Arn"] ∧
        b.outputs.map CfnOut.value =
          [OutVal.bucketName "logs-bucket", OutVal.bucketArn "logs-bucket"] :=
  c2_storage_resource_built devConfig "development" devEnv
    ⟨some "logs-bucket"⟩ "logs-bucket" (by decide) (by decide) rfl (by decide)

/-- C3 counterexample: on "myBucket" the code's sanitizer lowercases the
interior of the segment, returning "Mybucket", while the spec's algorithm
sentence — capitalize only each remaining segment's first letter — yields
"MyBucket". -/
theorem c3_counterexample :
    sanitize_construct_id "myBucket" = "Mybucket" ∧
    sanitizeSpec "myBucket" = "MyBucket" ∧
    ¬ (sanitize_construct_id "myBucket" = sanitizeSpec "myBucket") := by
  refine ⟨by decide, by decide, by decide⟩

/-- C3 amended: the sanitizer replaces `.` and `-` with a common separator
and splits on it (equivalently: splits on the separator set), drops empty
segments, applies Python capitalize to each remaining segment — uppercasing
its first character AND lowercasing the rest — and concatenates; in
particular sanitize "my-bucket.name" = "MyBucketName". -/
theorem c3_sanitizer_algorithm :
    (∀ s : String, sanitize_construct_id s = sanitizeAmended s) ∧
    sanitize_construct_id "my-bucket.name" = "MyBucketName" := by
  constructor
  · intro s
    unfold sanitize_construct_id sanitizeAmended
    rw [sanitizeL_eq_amended]
  · decide

/-- C4 counterexample: the sanitizer is not idempotent — applying it again
to its own output "MyBucketName" lowercases the interior, giving
"Mybucketname". -/
theorem c4_counterexample :
    sanitize_construct_id "my-bucket.name" = "MyBucketName" ∧
    sanitize_construct_id (sanitize_construct_id "my-bucket.name")
      = "Mybucketname" ∧
    ¬ (sanitize_construct_id (sanitize_construct_id "my-bucket.name")
        = sanitize_construct_id "my-bucket.name") := by
  refine ⟨by decide, by decide, by decide⟩

/-- Helper for C4: at the character-list level the sanitizer stabilizes from
the second application on. -/
theorem sanitizeL_stabilizes (s : List Char) :
    sanitizeL (sanitizeL (sanitizeL s)) = sanitizeL (sanitizeL s) := by
  have h1 := sanitizeL_no_sep s
  have e1 : sanitizeL (sanitizeL s) = capitalize (sanitizeL s) :=
    sanitizeL_of_no_sep _ h1
  have h2 : ∀ c ∈ capitalize (sanitizeL s), isSep c = false := by
    rw [← e1]
    exact sanitizeL_no_sep (sanitizeL s)
  calc sanitizeL (sanitizeL (sanitizeL s))
      = sanitizeL (capitalize (sanitizeL s)) := by rw [e1]
    _ = capitalize (capitalize (sanitizeL s)) := sanitizeL_of_no_sep _ h2
    _ = capitalize (sanitizeL s) := capitalize_idem _
    _ = sanitizeL (sanitizeL s) := e1.symm

/-- C4 amended: the sanitizer is deterministic (a pure function of its
input), but idempotence holds only from the second application on: for every
string x, sanitize (sanitize (sanitize x)) = sanitize (sanitize x);
sanitize (sanitize x) = sanitize x itself fails (see the counterexample). -/
theorem c4_sanitize_stabilizes (s : String) :
    sanitize_construct_id (sanitize_construct_id (sanitize_construct_id s))
      = sanitize_construct_id (sanitize_construct_id s) :=
  congrArg String.mk (sanitizeL_stabilizes s.data)

/-- C5 counterexample: on input "my bucket" the sanitizer returns
"My bucket", which contains a space — not an alphanumeric identifier. -/
theorem c5_counterexample :
    sanitize_construct_id "my bucket" = "My bucket" ∧
    ' ' ∈ (sanitize_construct_id "my bucket").data ∧
    isAlnum ' ' = false := by
  refine ⟨by decide, by decide, by decide⟩

/-- C5 amended: for every input string all of whose characters are
alphanumeric or separators (`.`, `-`, `_`), every character of the produced
identifier is alphanumeric — the capitalized segments are concatenated with
no separator left. -/
theorem c5_identifier_alnum (s : String)
    (h : ∀ c ∈ s.data, isAlnum c = true ∨ isSep c = true) :
    ∀ c ∈ (sanitize_construct_id s).data, isAlnum c = true := by
  intro c hc
  exact sanitizeL_alnum s.data h c hc

/-- C5 witness: the amended theorem applied to "my-bucket.name". -/
theorem c5_witness :
    (∀ c ∈ ("my-bucket.name" : String).data,
      isAlnum c = true ∨ isSep c = true) ∧
    (∀ c ∈ (sanitize_construct_id "my-bucket.name").data, isAlnum c = true) :=
  ⟨by decide, c5_identifier_alnum "my-bucket.name" (by decide)⟩

/-- C6: the storage builder processes specs in list order and skips every
entry lacking a (non-empty) name without aborting; on the development list
[no name, "logs-bucket"] it builds exactly one storage resource. -/
theorem c6_skip_nameless :
    (∀ (env_name : String) (l : List StorageSpec),
      buildBuckets env_name l =
        (l.filter StorageSpec.hasName).map
          (fun sc => buildBucket env_name (sc.bucket_name.getD ""))) ∧
    S3Stack devConfig "development"
      = Except.ok ⟨[buildBucket "development" "logs-bucket"]⟩ ∧
    (buildBuckets "development" [⟨none⟩, ⟨some "logs-bucket"⟩]).length = 1 := by
  refine ⟨buildBuckets_eq_filter_map, by rfl, by decide⟩

/-- C7: when the environment's network spec sets max_azs = 2, the emitted
virtual network declares exactly 6 subnets — 2 zones × 3 tiers, each a /24
(the per-zone replication of the provider SDK is modelled from the spec). -/
theorem c7_six_subnets (config : Config) (env_name : String)
    (env : EnvConfig) (vpc_config : VpcConfig)
    (henv : config.find env_name = some env) (hv : env.vpc = some vpc_config)
    (hazs : vpc_config.max_azs = some 2) :
    ∃ st, VpcStack config env_name = Except.ok st ∧
      st.vpc.subnets.length = 6 ∧
      (∀ sn ∈ st.vpc.subnets, sn.cidr_mask = 24) ∧
      (st.vpc.subnets.filter
        (fun sn => sn.subnet_type == SubnetKind.public)).length = 2 ∧
      (st.vpc.subnets.filter
        (fun sn => sn.subnet_type == SubnetKind.privateWithEgress)).length = 2 ∧
      (st.vpc.subnets.filter
        (fun sn => sn.subnet_type == SubnetKind.privateIsolated)).length = 2 := by
  refine ⟨mkVpcStack env_name vpc_config, ?_, ?_⟩
  · simp only [VpcStack, henv, hv]
  · simp only [mkVpcStack, expandSubnets, subnet_configuration, hazs,
      Option.getD_some]
    refine ⟨by rfl, ?_, by rfl, by rfl, by rfl⟩
    intro sn hsn
    simp only [List.range_succ, List.range_zero, List.nil_append,
      List.cons_append, List.flatMap_cons, List.flatMap_nil, List.map_cons,
      List.map_nil, List.append_nil, List.mem_cons, List.not_mem_nil,
      or_false] at hsn
    rcases hsn with h | h | h | h | h | h <;> subst h <;> rfl

/-- C7 witness: the theorem instantiated on the concrete development
configuration. -/
theorem c7_witness :
    ∃ st, VpcStack devConfig "development" = Except.ok st ∧
      st.vpc.subnets.length = 6 ∧
      (∀ sn ∈ st.vpc.subnets, sn.cidr_mask = 24) ∧
      (st.vpc.subnets.filter
        (fun sn => sn.subnet_type == SubnetKind.public)).length = 2 ∧
      (st.vpc.subnets.filter
        (fun sn => sn.subnet_type == SubnetKind.privateWithEgress)).length = 2 ∧
      (st.vpc.subnets.filter
        (fun sn => sn.subnet_type == SubnetKind.privateIsolated)).length = 2 :=
  c7_six_subnets devConfig "development" devEnv devVpc (by decide) (by decide)
    (by decide)

/-- C8: an environment name with no entry in the loaded configuration makes
construction fail with the unknown-environment error — in the app entry
point and in both stack constructors alike — so no resources are built. -/
theorem c8_unknown_environment (config : Config) (env_name : String)
    (account : String) (h : config.find env_name = none) :
    mainApp config env_name (some account)
      = Except.error (BuildErr.unknownEnvironment env_name) ∧
    VpcStack config env_name
      = Except.error (BuildErr.unknownEnvironment env_name) ∧
    S3Stack config env_name
      = Except.error (BuildErr.unknownEnvironment env_name) := by
  refine ⟨?_, ?_, ?_⟩
  · unfold mainApp
    rw [h]
  · unfold VpcStack
    rw [h]
  · unfold S3Stack
    rw [h]

/-- C8 witness: the theorem applied to the empty configuration. -/
theorem c8_witness :
    mainApp emptyConfig "qa" (some "123456789012")
      = Except.error (BuildErr.unknownEnvironment "qa") ∧
    VpcStack emptyConfig "qa"
      = Except.error (BuildErr.unknownEnvironment "qa") ∧
    S3Stack emptyConfig "qa"
      = Except.error (BuildErr.unknownEnvironment "qa") :=
  c8_unknown_environment emptyConfig "qa" "123456789012" (by decide)

/-- C9: for an existing environment entry, the network builder fails with
the missing-network-config error exactly when the entry has no vpc block,
and succeeds (building the network declarations) whenever a vpc block is
present. -/
theorem c9_missing_network_config (config : Config) (env_name : String)
    (env : EnvConfig) (henv : config.find env_name = some env) :
    (VpcStack config env_name
        = Except.error (BuildErr.missingNetworkConfig env_name)
      ↔ env.vpc = none) ∧
    (∀ vpc_config, env.vpc = some vpc_config →
      VpcStack config env_name = Except.ok (mkVpcStack env_name vpc_config)) := by
  constructor
  · constructor
    · intro h
      cases hvc : env.vpc with
      | none => rfl
      | some v =>
        simp only [VpcStack, henv, hvc] at h
        exact Except.noConfusion h
    · intro h
      simp only [VpcStack, henv, h]
  · intro v hv
    simp only [VpcStack, henv, hv]

/-- C9 witness: the theorem applied to the development configuration, whose
entry has a vpc block: the error direction is vacuously decided and the
success direction is exercised at devVpc. -/
theorem c9_witness :
    (VpcStack devConfig "development"
        = Except.error (BuildErr.missingNetworkConfig "development")
      ↔ devEnv.vpc = none) ∧
    (∀ vpc_config, devEnv.vpc = some vpc_config →
      VpcStack devConfig "development"
        = Except.ok (mkVpcStack "development" vpc_config)) :=
  c9_missing_network_config devConfig "development" devEnv (by decide)

/-- C10: the sanitizer is not injective — "my-bucket" and "my.bucket" are
distinct bucket names with the same identifier, so two distinct storage
specs in one environment collide on the derived construct id and on both
derived output names. -/
theorem c10_sanitizer_not_injective :
    ¬ ("my-bucket" = "my.bucket") ∧
    sanitize_construct_id "my-bucket" = sanitize_construct_id "my.bucket" ∧
    buildBuckets "development" [⟨some "my-bucket"⟩, ⟨some "my.bucket"⟩]
      = [buildBucket "development" "my-bucket",
          buildBucket "development" "my.bucket"] ∧
    (buildBucket "development" "my-bucket").bucket.cid
      = (buildBucket "development" "my.bucket").bucket.cid ∧
    (buildBucket "development" "my-bucket").outputs.map CfnOut.cid
      = (buildBucket "development" "my.bucket").outputs.map CfnOut.cid ∧
    ¬ ((buildBucket "development" "my-bucket").bucket.bucket_name
        = (buildBucket "development" "my.bucket").bucket.bucket_name) := by
  refine ⟨by decide, by decide, by decide, by decide, by decide, by decide⟩
